import Mathlib

/-!
Verification of the Spider-corpus test harness (`scripts/test-spider.py`).

The harness has two parts that the properties below are about:

* `categorize_failure` — an ordered chain of string-containment heuristics
  that assigns one category label to a failing query's raw text;
* `main` — the run aggregator: it clips the corpus to a configured limit
  (Python slice semantics), invokes the oracle once per query, accumulates
  `total` / `passed` / `failures`, and renders a percentage summary, an
  optional category histogram, and an optional verbose listing.

Query texts are Lean `String`s; the character-level operations of the
Python source (`in`, `index`, slicing, `count`, `upper`) are embedded as
operations on the underlying `List Char`.
-/

namespace TestSpider

/-- Python string-prefix test: `leadsWith needle hay` is true iff `needle`
is an initial segment of `hay` (character by character). -/
def leadsWith : List Char → List Char → Bool
  | [], _ => true
  | _ :: _, [] => false
  | a :: as, b :: bs => a == b && leadsWith as bs

/-- Python substring containment `needle in hay`: `needle` occurs as a
contiguous run inside `hay`.  (`'' in s` is `True` in Python, matching the
`isEmpty` base case.) -/
def hasSubstr : List Char → List Char → Bool
  | [], needle => needle.isEmpty
  | c :: t, needle => leadsWith needle (c :: t) || hasSubstr t needle

/-- The uppercased view of the query used by keyword rules 1–6
(`q = query.upper()` in the source; the corpus is ASCII SQL, where
Python `str.upper` agrees with `Char.toUpper` per character). -/
def upperOf (query : String) : List Char :=
  query.data.map Char.toUpper

/-- Rule 1 predicate, lines 36–41 of the source: `'SELECT' in q and '(' in q`,
then with `paren_idx = q.index('(')`, the guard `paren_idx + 1 < len(q)` and
`'SELECT' in q[paren_idx + 1:]`.  The Python nested `if`s fall through to the
later rules when any inner condition fails, so they amount to this single
conjunction.  `List.findIdx` computes `q.index('(')` in the branch where
`'('` is present. -/
def subqueryRule (query : String) : Bool :=
  let q := upperOf query
  hasSubstr q "SELECT".data && hasSubstr q "(".data &&
    (let paren_idx := q.findIdx (fun c => c == '(')
     decide (paren_idx + 1 < q.length) &&
       hasSubstr (q.drop (paren_idx + 1)) "SELECT".data)

/-- Rule 2 predicate: `' EXCEPT ' in q`. -/
def exceptRule (query : String) : Bool :=
  hasSubstr (upperOf query) " EXCEPT ".data

/-- Rule 3 predicate: `' UNION ' in q`. -/
def unionRule (query : String) : Bool :=
  hasSubstr (upperOf query) " UNION ".data

/-- Rule 4 predicate: `' INTERSECT ' in q`. -/
def intersectRule (query : String) : Bool :=
  hasSubstr (upperOf query) " INTERSECT ".data

/-- Rule 5 predicate: `'CASE ' in q or ' WHEN ' in q`. -/
def caseWhenRule (query : String) : Bool :=
  hasSubstr (upperOf query) "CASE ".data || hasSubstr (upperOf query) " WHEN ".data

/-- Rule 6 predicate: `' || ' in q`. -/
def concatRule (query : String) : Bool :=
  hasSubstr (upperOf query) " || ".data

/-- Rule 7 predicate, on the ORIGINAL (case-preserved) text:
`'""' in query or (query.count('"') % 2 != 0)`. -/
def doubleQuoteRule (query : String) : Bool :=
  hasSubstr query.data ['"', '"'] || decide (query.data.count '"' % 2 ≠ 0)

/-- The failure classifier, `categorize_failure` (source lines 31–57):
the ordered chain of heuristic rules, first match wins, `'Other'` as the
fallback. -/
def categorize_failure (query : String) : String :=
  if subqueryRule query then "Subquery"
  else if exceptRule query then "EXCEPT"
  else if unionRule query then "UNION"
  else if intersectRule query then "INTERSECT"
  else if caseWhenRule query then "CASE/WHEN"
  else if concatRule query then "String concat (||)"
  else if doubleQuoteRule query then "Double-quoted strings"
  else "Other"

/-- The classifier's rules as an explicit ordered predicate→label list
(the fallback label `'Other'` is supplied by `firstMatch` itself). -/
def ruleList : List ((String → Bool) × String) :=
  [(subqueryRule, "Subquery"),
   (exceptRule, "EXCEPT"),
   (unionRule, "UNION"),
   (intersectRule, "INTERSECT"),
   (caseWhenRule, "CASE/WHEN"),
   (concatRule, "String concat (||)"),
   (doubleQuoteRule, "Double-quoted strings")]

/-- Top-to-bottom first-match-wins evaluation of an ordered rule list,
with `'Other'` as the catch-all when no rule matches. -/
def firstMatch : List ((String → Bool) × String) → String → String
  | [], _ => "Other"
  | (p, label) :: rest, q => if p q then label else firstMatch rest q

/-- The fixed closed set of category labels the classifier can return. -/
def allCategories : List String :=
  ["Subquery", "EXCEPT", "UNION", "INTERSECT", "CASE/WHEN",
   "String concat (||)", "Double-quoted strings", "Other"]

/-- State of the aggregation loop in `main` (source lines 79–92):
the running counts `total`, `passed`, and the retained failing-query
texts in encounter order. -/
structure AggState where
  total : Nat
  passed : Nat
  failures : List String
  deriving Repr, DecidableEq

/-- One iteration of the loop body (source lines 85–92): `total += 1`,
then either `passed += 1` or `failures.append(query)` depending on the
oracle's verdict for this query. -/
def stepAgg (oracle : String → Bool) (s : AggState) (query : String) : AggState :=
  if oracle query then
    { s with total := s.total + 1, passed := s.passed + 1 }
  else
    { s with total := s.total + 1, failures := s.failures ++ [query] }

/-- The aggregation loop: fold the loop body over the (already clipped)
corpus prefix, starting from `total = 0`, `passed = 0`, `failures = []`
(source lines 79–81). -/
def runAgg (oracle : String → Bool) (queries : List String) : AggState :=
  queries.foldl (stepAgg oracle) ⟨0, 0, []⟩

/-- Python slice `l[:n]` for an `int` bound `n`: a nonnegative bound keeps
the first `n` elements (clipped to the length); a negative bound drops the
last `|n|` elements, yielding the empty list when `|n| ≥ len(l)`. -/
def pySliceTo (l : List String) (n : Int) : List String :=
  if 0 ≤ n then l.take n.toNat else l.take (l.length - (-n).toNat)

/-- The corpus prefix actually iterated by `main`:
`limit = min(args.limit, len(data))` then `data[:limit]`
(source lines 83–85). -/
def clippedCorpus (data : List String) (argLimit : Int) : List String :=
  pySliceTo data (min argLimit (data.length : Int))

/-- The whole measurement run: clip the corpus, then fold the aggregation
loop over it. -/
def runMain (oracle : String → Bool) (data : List String) (argLimit : Int) : AggState :=
  runAgg oracle (clippedCorpus data argLimit)

/-- Python division `a / b` of nonnegative integers as used in the
percentage computations: raises `ZeroDivisionError` when the divisor is
zero, otherwise yields the exact rational quotient. -/
def pyDivNat (a b : Nat) : Except String ℚ :=
  if b = 0 then Except.error "ZeroDivisionError" else Except.ok ((a : ℚ) / (b : ℚ))

/-- The final summary's passed-percentage computation `100*passed/total`
(source line 102; line 103 divides `100*len(failures)` by the same
`total`). -/
def summaryPassedPct (s : AggState) : Except String ℚ :=
  pyDivNat (100 * s.passed) s.total

/-- The final summary's failed-percentage computation
`100*len(failures)/total` (source line 103). -/
def summaryFailedPct (s : AggState) : Except String ℚ :=
  pyDivNat (100 * s.failures.length) s.total

/-- The histogram count of one category over the retained failures:
`Counter(categorize_failure(q) for q in failures)[cat]`
(source line 109). -/
def histCount (failures : List String) (cat : String) : Nat :=
  (failures.map categorize_failure).count cat

/-- The histogram percentage printed for one category:
`100*count/len(failures)` (source line 111). -/
def histPct (failures : List String) (cat : String) : Except String ℚ :=
  pyDivNat (100 * histCount failures cat) failures.length

/-- The text emitted for one entry of the verbose sample-failures listing:
`q[:100]` followed by `'...' if len(q) > 100 else ''` (source line 118). -/
def truncateEntry (q : String) : String :=
  ⟨q.data.take 100 ++ (if 100 < q.data.length then "...".data else [])⟩

/-- The verbose sample-failures listing: the first 20 retained failures,
each passed through `truncateEntry` (source lines 117–118). -/
def verboseEntries (failures : List String) : List String :=
  (failures.take 20).map truncateEntry

end TestSpider

namespace TestSpider

example : categorize_failure "SELECT * FROM (SELECT name FROM singer EXCEPT SELECT name FROM other)" = "Subquery" := by decide

example : categorize_failure "SELECT name FROM singer EXCEPT SELECT name FROM other" = "EXCEPT" := by decide

example : categorize_failure "SELECT a || b FROM t" = "String concat (||)" := by decide

example : categorize_failure "SELECT * FROM t WHERE name = \"\"" = "Double-quoted strings" := by decide

example : categorize_failure "SELECT COUNT(*) FROM singer WHERE age > 20" = "Other" := by decide

/-- Every result of the classifier is one of the eight fixed labels. -/
theorem categorize_failure_mem (q : String) : categorize_failure q ∈ allCategories := by
  unfold categorize_failure
  split_ifs <;> decide

/-- C1: the Failure Classifier evaluates its rules as an ordered list with
first-match-wins priority: for every query text, the returned Category is
the label of the earliest rule (Subquery, EXCEPT, UNION, INTERSECT,
CASE/WHEN, String-concat, Double-quoted-strings, Other) whose predicate
matches, and no later rule affects the result; in particular the example
text matches both the Subquery predicate and the EXCEPT predicate and is
assigned Subquery. -/
theorem c1_first_match_wins :
    (∀ q : String, categorize_failure q = firstMatch ruleList q) ∧
    subqueryRule "SELECT * FROM (SELECT name FROM singer EXCEPT SELECT name FROM other)" = true ∧
    exceptRule "SELECT * FROM (SELECT name FROM singer EXCEPT SELECT name FROM other)" = true ∧
    categorize_failure "SELECT * FROM (SELECT name FROM singer EXCEPT SELECT name FROM other)" = "Subquery" :=
  ⟨fun _ => rfl, by decide, by decide, by decide⟩

/-- C2: the Subquery rule matches exactly when the uppercased query text
contains `SELECT`, contains `(`, and `SELECT` occurs again strictly after
the first `(` (scanning to the end of the string); every query text
satisfying this condition is classified Subquery. -/
theorem c2_subquery_rule_characterization (q : String) :
    categorize_failure q = "Subquery" ↔
      (hasSubstr (upperOf q) "SELECT".data = true ∧
       hasSubstr (upperOf q) "(".data = true ∧
       hasSubstr ((upperOf q).drop
           ((upperOf q).findIdx (fun c => c == '(') + 1)) "SELECT".data = true) := by
  have hstep : categorize_failure q = "Subquery" ↔ subqueryRule q = true := by
    unfold categorize_failure
    cases hs : subqueryRule q with
    | true => simp
    | false =>
      simp only [Bool.false_eq_true, if_false]
      constructor
      · intro h
        exfalso
        revert h
        split_ifs <;> decide
      · intro h
        exact absurd h (by decide)
  rw [hstep]
  unfold subqueryRule
  simp only [Bool.and_eq_true, decide_eq_true_eq]
  constructor
  · rintro ⟨⟨hA, hB⟩, _, hD⟩
    exact ⟨hA, hB, hD⟩
  · rintro ⟨hA, hB, hD⟩
    refine ⟨⟨hA, hB⟩, ?_, hD⟩
    by_contra hc
    push_neg at hc
    have hnil : (upperOf q).drop ((upperOf q).findIdx (fun c => c == '(') + 1) = [] :=
      List.drop_eq_nil_of_le hc
    rw [hnil] at hD
    exact absurd hD (by decide)

/-- C2 witness: a text whose second SELECT follows the first parenthesis
is classified Subquery via the characterization. -/
theorem c2_subquery_rule_characterization_witness :
    categorize_failure "SELECT * FROM (SELECT 1)" = "Subquery" :=
  (c2_subquery_rule_characterization "SELECT * FROM (SELECT 1)").mpr
    ⟨by decide, by decide, by decide⟩

/-- C3: the Double-quoted-strings rule operates on the original,
case-preserved query text: for every query text matching none of rules
1–6, the classifier returns Double-quoted strings if and only if the
original text contains an adjacent empty double-quote pair or its count
of double-quote characters is odd. -/
theorem c3_double_quote_rule (q : String)
    (h1 : subqueryRule q = false) (h2 : exceptRule q = false)
    (h3 : unionRule q = false) (h4 : intersectRule q = false)
    (h5 : caseWhenRule q = false) (h6 : concatRule q = false) :
    categorize_failure q = "Double-quoted strings" ↔
      (hasSubstr q.data ['"', '"'] = true ∨ q.data.count '"' % 2 = 1) := by
  have hstep : categorize_failure q = "Double-quoted strings" ↔ doubleQuoteRule q = true := by
    unfold categorize_failure
    rw [h1, h2, h3, h4, h5, h6]
    simp only [Bool.false_eq_true, if_false]
    cases hd : doubleQuoteRule q with
    | true => simp
    | false =>
      simp only [Bool.false_eq_true, if_false]
      constructor
      · intro h; exact absurd h (by decide)
      · intro h; exact absurd h (by decide)
  rw [hstep]
  unfold doubleQuoteRule
  simp only [Bool.or_eq_true, decide_eq_true_eq]
  rw [Nat.mod_two_ne_zero]

/-- C3 witness: the spec's example is classified Double-quoted strings via
the rule characterization. -/
theorem c3_double_quote_rule_witness :
    categorize_failure "SELECT * FROM t WHERE name = \"\"" = "Double-quoted strings" :=
  (c3_double_quote_rule "SELECT * FROM t WHERE name = \"\""
      (by decide) (by decide) (by decide) (by decide) (by decide) (by decide)).mpr
    (Or.inl (by decide))

/-- C4: classification is total and deterministic: every query text (the
empty string included) is assigned exactly one Category from the fixed
closed set, Other is the catch-all when no earlier rule matches, and
classifying the same text twice yields the same Category. -/
theorem c4_total_deterministic :
    (∀ q : String, categorize_failure q ∈ allCategories) ∧
    (∀ q : String, subqueryRule q = false → exceptRule q = false →
      unionRule q = false → intersectRule q = false → caseWhenRule q = false →
      concatRule q = false → doubleQuoteRule q = false →
      categorize_failure q = "Other") ∧
    (∀ q : String, categorize_failure q = categorize_failure q) := by
  refine ⟨categorize_failure_mem, ?_, fun _ => rfl⟩
  intro q h1 h2 h3 h4 h5 h6 h7
  unfold categorize_failure
  rw [h1, h2, h3, h4, h5, h6, h7]
  simp

/-- C4 witness: instantiation on the empty string, which matches no rule
and falls through to Other. -/
theorem c4_total_deterministic_witness :
    categorize_failure "" ∈ allCategories ∧ categorize_failure "" = "Other" :=
  ⟨c4_total_deterministic.1 "",
   c4_total_deterministic.2.1 "" (by decide) (by decide) (by decide) (by decide)
     (by decide) (by decide) (by decide)⟩

/-- The loop invariant `passed + len(failures) = total` is preserved by the
fold from any state satisfying it. -/
theorem foldl_stepAgg_inv (oracle : String → Bool) :
    ∀ (qs : List String) (s : AggState),
      s.passed + s.failures.length = s.total →
      (qs.foldl (stepAgg oracle) s).passed + (qs.foldl (stepAgg oracle) s).failures.length
        = (qs.foldl (stepAgg oracle) s).total := by
  intro qs
  induction qs with
  | nil => intro s hs; simpa using hs
  | cons q rest ih =>
    intro s hs
    simp only [List.foldl_cons]
    apply ih
    unfold stepAgg
    split_ifs <;> simp <;> omega

/-- The fold adds exactly one to `total` per query processed. -/
theorem foldl_stepAgg_total (oracle : String → Bool) :
    ∀ (qs : List String) (s : AggState),
      (qs.foldl (stepAgg oracle) s).total = s.total + qs.length := by
  intro qs
  induction qs with
  | nil => intro s; simp
  | cons q rest ih =>
    intro s
    simp only [List.foldl_cons, List.length_cons]
    rw [ih]
    unfold stepAgg
    split_ifs <;> simp <;> omega

/-- The run processes exactly as many queries as the clipped corpus holds. -/
theorem runAgg_total (oracle : String → Bool) (qs : List String) :
    (runAgg oracle qs).total = qs.length := by
  unfold runAgg
  rw [foldl_stepAgg_total]
  simp

/-- C5: for every corpus prefix and every sequence of per-query oracle
outcomes, the accumulated counts satisfy `passed + failed = total`, where
`failed` is the number of retained failing queries; the invariant holds
after each iteration of the loop (i.e. after every prefix of the clipped
corpus), not only at the end. -/
theorem c5_pass_fail_invariant :
    ∀ (oracle : String → Bool) (queries : List String) (k : Nat),
      ((runAgg oracle (queries.take k)).passed
          + (runAgg oracle (queries.take k)).failures.length
        = (runAgg oracle (queries.take k)).total) ∧
      ((runAgg oracle queries).passed + (runAgg oracle queries).failures.length
        = (runAgg oracle queries).total) := by
  intro oracle queries k
  exact ⟨foldl_stepAgg_inv oracle (queries.take k) ⟨0, 0, []⟩ rfl,
         foldl_stepAgg_inv oracle queries ⟨0, 0, []⟩ rfl⟩

/-- C6 counterexample: on the empty corpus the final summary does NOT
guard against a zero total — the percentage computation `100*passed/total`
is performed with `total = 0` and raises `ZeroDivisionError`, rather than
being skipped or reporting 0%. -/
theorem c6_counterexample :
    clippedCorpus [] 500 = [] ∧
    summaryPassedPct (runMain (fun _ => true) [] 500) = Except.error "ZeroDivisionError" ∧
    summaryFailedPct (runMain (fun _ => true) [] 500) = Except.error "ZeroDivisionError" := by
  refine ⟨rfl, rfl, rfl⟩

/-- C6 amended: if the corpus is empty after clipping, the run performs the
summary divisions `100*passed/total` and `100*len(failures)/total` with
`total = 0`, so both raise `ZeroDivisionError`; there is no zero-total
guard. -/
theorem c6_no_zero_guard (oracle : String → Bool) (data : List String) (argLimit : Int)
    (h : clippedCorpus data argLimit = []) :
    (runMain oracle data argLimit).total = 0 ∧
    summaryPassedPct (runMain oracle data argLimit) = Except.error "ZeroDivisionError" ∧
    summaryFailedPct (runMain oracle data argLimit) = Except.error "ZeroDivisionError" := by
  have hrun : runMain oracle data argLimit = ⟨0, 0, []⟩ := by
    unfold runMain
    rw [h]
    rfl
  rw [hrun]
  exact ⟨rfl, rfl, rfl⟩

/-- C6 amended witness: instantiation on the empty corpus with the default
limit 500. -/
theorem c6_no_zero_guard_witness :
    (runMain (fun _ => false) [] 500).total = 0 ∧
    summaryPassedPct (runMain (fun _ => false) [] 500) = Except.error "ZeroDivisionError" ∧
    summaryFailedPct (runMain (fun _ => false) [] 500) = Except.error "ZeroDivisionError" :=
  c6_no_zero_guard (fun _ => false) [] 500 rfl

/-- C8: when the configured limit exceeds the corpus length, the clipped
corpus is the whole corpus — the run iterates exactly the corpus, in
corpus order, applying the oracle once per query — and exactly
`data.length` queries are counted. -/
theorem c8_limit_clipping (oracle : String → Bool) (data : List String) (n : Int)
    (h : (data.length : Int) < n) :
    clippedCorpus data n = data ∧ (runMain oracle data n).total = data.length := by
  have hcl : clippedCorpus data n = data := by
    unfold clippedCorpus pySliceTo
    rw [min_eq_right h.le, if_pos (Int.natCast_nonneg _), Int.toNat_natCast,
      List.take_length]
  refine ⟨hcl, ?_⟩
  unfold runMain
  rw [hcl, runAgg_total]

/-- C8 witness: a two-query corpus with limit 5 processes both queries. -/
theorem c8_limit_clipping_witness :
    clippedCorpus ["a", "b"] 5 = ["a", "b"] ∧
    (runMain (fun _ => false) ["a", "b"] 5).total = ["a", "b"].length :=
  c8_limit_clipping (fun _ => false) ["a", "b"] 5 (by decide)

/-- C10: a negative configured limit `n` is not clamped to `[0, L]`:
`min(n, L) = n` and the Python slice `data[:n]` drops the last `|n|`
entries, so the run processes `max(0, L + n)` queries; when `L + n ≤ 0`
zero queries are processed and the final summary division raises
`ZeroDivisionError`. -/
theorem c10_negative_limit (oracle : String → Bool) (data : List String) (n : Int)
    (h : n < 0) :
    clippedCorpus data n = data.take (data.length - (-n).toNat) ∧
    (runMain oracle data n).total = ((data.length : Int) + n).toNat ∧
    ((data.length : Int) + n ≤ 0 →
      summaryPassedPct (runMain oracle data n) = Except.error "ZeroDivisionError") := by
  have hmin : min n ((data.length : Int)) = n :=
    min_eq_left (h.le.trans (Int.natCast_nonneg _))
  have hcl : clippedCorpus data n = data.take (data.length - (-n).toNat) := by
    unfold clippedCorpus pySliceTo
    rw [hmin, if_neg (by omega)]
  have htot : (runMain oracle data n).total = ((data.length : Int) + n).toNat := by
    unfold runMain
    rw [hcl, runAgg_total, List.length_take]
    omega
  refine ⟨hcl, htot, ?_⟩
  intro hle
  have h0 : (runMain oracle data n).total = 0 := by omega
  unfold summaryPassedPct pyDivNat
  rw [h0]
  rfl

/-- C10 witness: a one-query corpus with limit -2 processes zero queries
and the summary division raises. -/
theorem c10_negative_limit_witness :
    clippedCorpus ["a"] (-2) = [] ∧
    (runMain (fun _ => true) ["a"] (-2)).total = 0 ∧
    summaryPassedPct (runMain (fun _ => true) ["a"] (-2)) = Except.error "ZeroDivisionError" := by
  have hmain := c10_negative_limit (fun _ => true) ["a"] (-2) (by decide)
  refine ⟨?_, ?_, hmain.2.2 (by decide)⟩
  · rw [hmain.1]; rfl
  · rw [hmain.2.1]; rfl

/-- The histogram counts over the eight categories account for every
retained failure exactly once. -/
theorem hist_counts_sum (fs : List String) :
    (allCategories.map (fun c => (fs.map categorize_failure).count c)).sum = fs.length := by
  induction fs with
  | nil => simp
  | cons q fs ih =>
    have hmem : categorize_failure q ∈ allCategories := categorize_failure_mem q
    simp only [allCategories, List.mem_cons, List.not_mem_nil, or_false] at hmem
    simp only [List.map_cons]
    rcases hmem with h | h | h | h | h | h | h | h <;>
      simp only [allCategories, List.map_cons, List.map_nil, List.sum_cons, List.sum_nil,
        List.count_cons, h, beq_iff_eq] at ih ⊢ <;>
      simp <;> omega

/-- C7: when at least one failure occurred, each category's histogram
percentage is computed as `100*count/len(failures)` — against the failure
set, not the total corpus — and over the eight categories these
percentages sum exactly to 100, since every retained failure is assigned
exactly one category. -/
theorem c7_histogram_percentages (failures : List String) (h : failures ≠ []) :
    (∀ cat : String, histPct failures cat
        = Except.ok ((100 * (histCount failures cat : ℚ)) / (failures.length : ℚ))) ∧
    (allCategories.map
        (fun cat => (100 * (histCount failures cat : ℚ)) / (failures.length : ℚ))).sum
      = 100 := by
  have hlen0 : failures.length ≠ 0 := fun h0 => h (List.length_eq_zero.mp h0)
  have hlen : (failures.length : ℚ) ≠ 0 := Nat.cast_ne_zero.mpr hlen0
  constructor
  · intro cat
    unfold histPct pyDivNat
    rw [if_neg hlen0]
    push_cast
    rfl
  · have hsum := hist_counts_sum failures
    unfold histCount
    simp only [allCategories, List.map_cons, List.map_nil, List.sum_cons,
      List.sum_nil] at hsum ⊢
    have hq := congrArg (Nat.cast : ℕ → ℚ) hsum
    push_cast at hq
    field_simp
    linarith [hq]

/-- C7 witness: a two-failure set splitting over Other and EXCEPT; the
percentage formula and the sum-to-100 property instantiated there. -/
theorem c7_histogram_percentages_witness :
    (∀ cat : String, histPct ["SELECT x FROM t", "SELECT a FROM t EXCEPT SELECT b FROM t"] cat
        = Except.ok ((100 * (histCount ["SELECT x FROM t", "SELECT a FROM t EXCEPT SELECT b FROM t"] cat : ℚ))
            / ((["SELECT x FROM t", "SELECT a FROM t EXCEPT SELECT b FROM t"] : List String).length : ℚ))) ∧
    (allCategories.map
        (fun cat => (100 * (histCount ["SELECT x FROM t", "SELECT a FROM t EXCEPT SELECT b FROM t"] cat : ℚ))
            / ((["SELECT x FROM t", "SELECT a FROM t EXCEPT SELECT b FROM t"] : List String).length : ℚ))).sum
      = 100 :=
  c7_histogram_percentages ["SELECT x FROM t", "SELECT a FROM t EXCEPT SELECT b FROM t"]
    (by decide)

/-- C9: the verbose sample-failures listing emits at most 20 entries (the
first 20 retained failures in encounter order), each emitted query text is
at most 103 characters, queries longer than 100 characters are truncated
to their first 100 characters followed by the ellipsis marker, and queries
of 100 characters or fewer are emitted unchanged. -/
theorem c9_verbose_listing (failures : List String) :
    (verboseEntries failures).length ≤ 20 ∧
    (∀ e ∈ verboseEntries failures, e.length ≤ 103) ∧
    (∀ q : String, 100 < q.length →
      truncateEntry q = String.mk (q.data.take 100 ++ "...".data)) ∧
    (∀ q : String, q.length ≤ 100 → truncateEntry q = q) := by
  refine ⟨?_, ?_, ?_, ?_⟩
  · unfold verboseEntries
    rw [List.length_map, List.length_take]
    omega
  · intro e he
    unfold verboseEntries at he
    rcases List.mem_map.mp he with ⟨q, _, rfl⟩
    show (truncateEntry q).data.length ≤ 103
    unfold truncateEntry
    rw [List.length_append, List.length_take]
    split_ifs <;> simp
  · intro q hq
    unfold truncateEntry
    rw [if_pos (show 100 < q.data.length from hq)]
  · intro q hq
    unfold truncateEntry
    rw [if_neg (show ¬100 < q.data.length from Nat.not_lt.mpr hq), List.append_nil,
      List.take_of_length_le hq]

set_option maxRecDepth 4000 in
/-- C9 witness: instantiation on a short entry and on a 150-character
query. -/
theorem c9_verbose_listing_witness :
    (verboseEntries ["abc"]).length ≤ 20 ∧
    ("abc" : String).length ≤ 103 ∧
    truncateEntry (String.mk (List.replicate 150 'a'))
      = String.mk ((String.mk (List.replicate 150 'a')).data.take 100 ++ "...".data) ∧
    truncateEntry "abc" = "abc" :=
  ⟨(c9_verbose_listing ["abc"]).1,
   (c9_verbose_listing ["abc"]).2.1 "abc" (by decide),
   (c9_verbose_listing []).2.2.1 (String.mk (List.replicate 150 'a')) (by decide),
   (c9_verbose_listing []).2.2.2 "abc" (by decide)⟩

end TestSpider
